import Mathlib

/-!
Formal model of the authentication session manager of the demo-ext-chat-app
repository (src/src/hooks/useAuthServer.ts, src/src/hooks/useExtensionApi.ts
and the OAuth callback processing in src/src/App.tsx).  The stateful
browser-storage code is embedded as explicit state passing over a record of
the five persisted keys; network calls are embedded as oracles passed in as
arguments, with the number of issued requests tracked in the result.
-/

namespace DemoChat

/-- The five persisted localStorage keys of STORAGE_KEYS in
extension-constants: access token, refresh token, PKCE code verifier,
PKCE state and resource scope.  A value of none models an absent key
(localStorage.getItem returning null). -/
structure Store where
  accessToken : Option String
  refreshToken : Option String
  codeVerifier : Option String
  state : Option String
  resourceScope : Option String
deriving DecidableEq, Repr

/-- JavaScript truthiness of a nullable string: null and the empty string
are falsy, every other string is truthy. -/
def jsTruthy : Option String → Bool
  | some s => s != ""
  | none => false

/-- A parsed response of the identity-provider token endpoint: the ok flag
and status of the HTTP response, the raw body text (read on failure), and
the access_token / refresh_token fields of the parsed JSON body, none when
the field is absent. -/
structure TokenResponse where
  ok : Bool
  status : Nat
  bodyText : String
  accessToken : Option String
  refreshToken : Option String
deriving DecidableEq, Repr

/-- Behaviour of one fetch to the token endpoint: either the fetch itself
throws, or the server responds. -/
inductive TokenNet
  | throws (msg : String)
  | responds (resp : TokenResponse)
deriving DecidableEq, Repr

/-- The distinct failure points of exchangeCodeForTokens, in the order the
code can raise them: the state (anti-CSRF) check, the code-verifier check,
a non-success HTTP response, a success response without access_token and a
thrown fetch.  The first two correspond to the StateMismatchError and
MissingVerifierError of the design taxonomy. -/
inductive ExchangeError
  | stateMismatch
  | missingVerifier
  | tokenExchangeFailed (status : Nat) (body : String)
  | noAccessToken
  | networkError (msg : String)
deriving DecidableEq, Repr

/-- Outcome of one execution of exchangeCodeForTokens: normal return or a
thrown error. -/
inductive ExchangeOutcome
  | ok
  | error (e : ExchangeError)
deriving DecidableEq, Repr

/-- Result of one execution of exchangeCodeForTokens: its outcome, the
storage state after the call, and how many requests were sent to the token
endpoint. -/
structure ExchangeResult where
  outcome : ExchangeOutcome
  store : Store
  networkCalls : Nat
deriving DecidableEq, Repr

/-- Embedding of exchangeCodeForTokens (useAuthServer.ts lines 21 to 96).
The state parameter is compared against the stored state with strict
equality before anything else; the code verifier is then read with a
truthiness check; only then is a request POSTed; on a non-ok response or a
response without a truthy access_token the call fails; on success the
tokens are stored (the refresh token only when present) and the three PKCE
keys are removed. -/
def exchangeCodeForTokens (st : Store) (code state : String) (net : TokenNet) :
    ExchangeResult :=
  if st.state ≠ some state then
    ⟨.error .stateMismatch, st, 0⟩
  else if ¬ jsTruthy st.codeVerifier then
    ⟨.error .missingVerifier, st, 0⟩
  else
    match net with
    | .throws msg => ⟨.error (.networkError msg), st, 1⟩
    | .responds resp =>
      if resp.ok = false then
        ⟨.error (.tokenExchangeFailed resp.status resp.bodyText), st, 1⟩
      else if ¬ jsTruthy resp.accessToken then
        ⟨.error .noAccessToken, st, 1⟩
      else
        let st1 := { st with accessToken := resp.accessToken }
        let st2 :=
          if jsTruthy resp.refreshToken then
            { st1 with refreshToken := resp.refreshToken }
          else st1
        ⟨.ok, { st2 with codeVerifier := none, state := none, resourceScope := none }, 1⟩

/-- Result of one execution of performTokenRefresh inside
refreshAccessToken: the returned value (the new access token or null), the
storage state afterwards, the number of authStateChanged events dispatched
and the number of requests sent to the token endpoint. -/
structure RefreshResult where
  result : Option String
  store : Store
  authEvents : Nat
  networkCalls : Nat
deriving DecidableEq, Repr

/-- Embedding of performTokenRefresh (useAuthServer.ts lines 104 to 166).
With no truthy refresh token it returns null without a request; a thrown
fetch returns null; an HTTP 400 or 401 clears both tokens, dispatches the
authStateChanged event and returns null; any other non-ok status, or an ok
response without a truthy access_token, returns null leaving the store
untouched; on success the new tokens are stored and the access token
returned. -/
def performTokenRefresh (st : Store) (net : TokenNet) : RefreshResult :=
  if ¬ jsTruthy st.refreshToken then
    ⟨none, st, 0, 0⟩
  else
    match net with
    | .throws _ => ⟨none, st, 0, 1⟩
    | .responds resp =>
      if resp.ok = false then
        if resp.status = 401 ∨ resp.status = 400 then
          ⟨none, { st with accessToken := none, refreshToken := none }, 1, 1⟩
        else
          ⟨none, st, 0, 1⟩
      else if ¬ jsTruthy resp.accessToken then
        ⟨none, st, 0, 1⟩
      else
        let st1 := { st with accessToken := resp.accessToken }
        let st2 :=
          if jsTruthy resp.refreshToken then
            { st1 with refreshToken := resp.refreshToken }
          else st1
        ⟨resp.accessToken, st2, 0, 1⟩

/-- Bool test for a pattern occurring as a contiguous run inside a list of
characters. -/
def charsHaveRun (pat : List Char) : List Char → Bool
  | [] => pat.isEmpty
  | c :: rest => List.isPrefixOf pat (c :: rest) || charsHaveRun pat rest

/-- The JavaScript String.includes test: pat occurs as a substring of s. -/
def strIncludes (s pat : String) : Bool :=
  charsHaveRun pat.toList s.toList

/-- Shape of a JavaScript value thrown by the extension bridge, as observed
by is401Error: whether it is a truthy object, the numeric value of its
status field when present, the numeric status of a truthy response field
when present, whether a body field is present, and the string value of its
message field when present. -/
structure JsError where
  isObject : Bool
  status : Option Int
  responseStatus : Option Int
  hasBody : Bool
  message : Option String
deriving DecidableEq, Repr

/-- Embedding of is401Error (useExtensionApi.ts lines 392 to 408): an
object whose status field is 401, or whose truthy response field carries
status 401, or which has body and status fields with status 401, or whose
truthy message string contains the substring 401. -/
def is401Error (e : JsError) : Bool :=
  e.isObject &&
    (e.status == some 401 ||
     e.responseStatus == some 401 ||
     (e.hasBody && e.status == some 401) ||
     (match e.message with
      | some m => m != "" && strIncludes m "401"
      | none => false))

/-- A resolved response of the extension bridge send, with its status and a
summary of the body. -/
structure ApiResponse where
  status : Int
  body : String
deriving DecidableEq, Repr

/-- Settled outcome of one underlying extension-bridge send: the promise
either resolves with an ApiResponse or rejects with a thrown value. -/
inductive SendOutcome
  | resolves (resp : ApiResponse)
  | rejects (e : JsError)
deriving DecidableEq, Repr

/-- Oracle for one logical sendApiRequest call: the outcome of the first
underlying send, the value refreshAccessToken would resolve to if invoked,
and the outcome of the retry send if invoked. -/
structure ApiCallTrace where
  firstSend : SendOutcome
  refreshOutcome : Option String
  retrySend : SendOutcome
deriving DecidableEq, Repr

/-- Final value of one logical sendApiRequest call: either the response it
returns or the value it throws. -/
inductive CallResult
  | success (resp : ApiResponse)
  | failure (e : JsError)
deriving DecidableEq, Repr

/-- The observable actions of one logical sendApiRequest call, in
execution order: underlying sends, refreshAccessToken invocations and
clearTokensAndRedirect invocations. -/
inductive ApiEvent
  | send
  | refresh
  | logout
deriving DecidableEq, BEq, Repr

/-- Result of one logical sendApiRequest call: its final value and the list
of observable actions in the order they happened. -/
structure ApiCallResult where
  result : CallResult
  events : List ApiEvent
deriving DecidableEq, Repr

/-- Embedding of sendApiRequest (useExtensionApi.ts lines 410 to 453).  A
resolved first send is returned as is.  A rejected first send is classified
by is401Error; a 401 triggers refreshAccessToken; a truthy new token leads
to exactly one retry, whose rejection is classified again, a second 401
additionally triggering clearTokensAndRedirect before the retry error is
re-thrown; a falsy refresh outcome triggers clearTokensAndRedirect and the
original error is re-thrown; a non-401 first rejection is re-thrown
directly. -/
def sendApiRequest (tr : ApiCallTrace) : ApiCallResult :=
  match tr.firstSend with
  | .resolves r => ⟨.success r, [.send]⟩
  | .rejects e =>
    if is401Error e then
      if jsTruthy tr.refreshOutcome then
        match tr.retrySend with
        | .resolves r => ⟨.success r, [.send, .refresh, .send]⟩
        | .rejects e2 =>
          if is401Error e2 then
            ⟨.failure e2, [.send, .refresh, .send, .logout]⟩
          else
            ⟨.failure e2, [.send, .refresh, .send]⟩
      else
        ⟨.failure e, [.send, .refresh, .logout]⟩
    else
      ⟨.failure e, [.send]⟩

/-- Number of underlying sends performed by a sendApiRequest call. -/
def sendCount (r : ApiCallResult) : Nat := r.events.count .send

/-- Number of refreshAccessToken invocations performed by a sendApiRequest
call. -/
def refreshCount (r : ApiCallResult) : Nat := r.events.count .refresh

/-- Number of clearTokensAndRedirect invocations performed by a
sendApiRequest call. -/
def logoutCount (r : ApiCallResult) : Nat := r.events.count .logout

/-- Whether the settled outcome of an underlying send signals HTTP 401: a
resolved response with status 401, or a rejection classified as 401 by
is401Error. -/
def outcomeSignals401 : SendOutcome → Bool
  | .resolves r => r.status == 401
  | .rejects e => is401Error e

/-- Events of the single-threaded event loop driving refreshAccessToken
(useAuthServer.ts lines 98 to 176): an invoke event is the synchronous
prefix of one call of refreshAccessToken by a caller (the check of
refreshPromiseRef, and, when it is null, the launch of performTokenRefresh
and the assignment of the new promise to the ref, all before any await can
yield); a settle event is the settlement of the in-flight
performTokenRefresh promise, which resumes every caller awaiting it and
whose finally clause resets the ref to null. -/
inductive SFEvent
  | invoke (caller : Nat)
  | settle
deriving DecidableEq, Repr

/-- State of the single-flight refresh machinery: whether
refreshPromiseRef currently holds a promise, how many token-endpoint
requests have been issued, which callers are awaiting the in-flight
promise, and the values already delivered to callers. -/
structure SFState where
  refBusy : Bool
  networkCalls : Nat
  awaitingCallers : List Nat
  delivered : List (Nat × Option String)
deriving DecidableEq, Repr

/-- One event-loop step of the single-flight refresh model, parameterised
by the single underlying performTokenRefresh execution op: an invoke while
the ref is null launches op (issuing its network calls) and stores the
promise in the ref before yielding, then awaits it; an invoke while the
ref is busy merely awaits the existing promise; the settle event delivers
the one resolved value of op to every awaiting caller and clears the
ref. -/
def sfStep (op : RefreshResult) (s : SFState) : SFEvent → SFState
  | .invoke c =>
    if s.refBusy then
      { s with awaitingCallers := s.awaitingCallers ++ [c] }
    else
      { s with refBusy := true,
               networkCalls := s.networkCalls + op.networkCalls,
               awaitingCallers := s.awaitingCallers ++ [c] }
  | .settle =>
    if s.refBusy then
      { s with refBusy := false,
               delivered := s.delivered ++ s.awaitingCallers.map (fun c => (c, op.result)),
               awaitingCallers := [] }
    else s

/-- Initial state of the single-flight model: no promise in flight, no
requests issued. -/
def sfInit : SFState := ⟨false, 0, [], []⟩

/-- Run of the single-flight model over a list of event-loop events. -/
def sfRun (op : RefreshResult) (evs : List SFEvent) : SFState :=
  evs.foldl (sfStep op) sfInit

/-- State of the execution guard of OAuthCallbackProcessor (App.tsx lines
28 to 111): the processedRef flag, whether processingRef holds a promise,
whether the asynchronous continuation after the token exchange is still
pending, and how many exchange and user-info calls were made.  This
models the ref-guarded processor only; the unguarded CallbackHandler
variant is modelled separately by handlerStep. -/
structure GuardState where
  processed : Bool
  processing : Bool
  pendingUserFetch : Bool
  exchangeCalls : Nat
  userInfoCalls : Nat
deriving DecidableEq, Repr

/-- Events of the event loop driving the callback-processing effect: a
trigger event is one synchronous firing of the effect body (the guard
check, and, when it passes, the launch of processOAuthCallback — whose
synchronous prefix invokes exchangeCodeForTokens — and the assignment of
the promise to processingRef, all in one synchronous block); a resume
event is the resumption after the exchange settles, issuing the user-info
request and completing processing. -/
inductive EffectEvent
  | trigger
  | resume
deriving DecidableEq, Repr

/-- One event-loop step of the execution-guard model.  A trigger finding
processedRef or processingRef set does nothing; otherwise it counts one
exchangeCodeForTokens invocation, sets the guard and leaves the user-info
continuation pending.  A resume with a pending continuation counts one
user-info request and marks processing complete. -/
def effectStep (s : GuardState) : EffectEvent → GuardState
  | .trigger =>
    if s.processed || s.processing then s
    else
      { s with processing := true,
               exchangeCalls := s.exchangeCalls + 1,
               pendingUserFetch := true }
  | .resume =>
    if s.pendingUserFetch then
      { s with pendingUserFetch := false,
               userInfoCalls := s.userInfoCalls + 1,
               processed := true,
               processing := false }
    else s

/-- Initial state of the execution-guard model at page load. -/
def effectInit : GuardState := ⟨false, false, false, 0, 0⟩

/-- Run of the execution-guard model over a list of event-loop events. -/
def effectRun (evs : List EffectEvent) : GuardState :=
  evs.foldl effectStep effectInit

/-- The four query parameters read from the callback URL by
processOAuthCallback; none models an absent parameter. -/
structure CallbackParams where
  code : Option String
  state : Option String
  error : Option String
  errorDescription : Option String
deriving DecidableEq, Repr

/-- Outcome of the validation step of the callback: a failure with its
display message, or the extracted code and state to proceed with. -/
inductive ValidationOutcome
  | failed (message : String)
  | proceed (code state : String)
deriving DecidableEq, Repr

/-- Embedding of the validation step of processOAuthCallback (App.tsx
lines 42 to 62): a truthy error parameter yields a failure whose message
is the special access-denied text when the chosen message (the truthy
error description, else the error) equals access_denied, and an OAuth
error text otherwise; then a falsy code or state parameter yields the
corresponding failure; otherwise processing proceeds. -/
def validateCallback (p : CallbackParams) : ValidationOutcome :=
  if jsTruthy p.error then
    let errorMessage :=
      if jsTruthy p.errorDescription then p.errorDescription.getD ""
      else p.error.getD ""
    .failed (if errorMessage = "access_denied" then
              "User denied access to the application"
             else "OAuth error: " ++ errorMessage)
  else if ¬ jsTruthy p.code then
    .failed "Authorization code not found in callback URL"
  else if ¬ jsTruthy p.state then
    .failed "State parameter not found in callback URL"
  else
    .proceed (p.code.getD "") (p.state.getD "")

/-- The display message of each exchange failure, as produced by the throw
sites of exchangeCodeForTokens: the state and verifier errors are thrown
before the try block and surface unwrapped; errors inside the try block
are wrapped by the catch clause with the token-exchange-failed prefix (so
a non-ok HTTP response carries the prefix twice, once from the inner throw
and once from the wrapper). -/
def exchangeErrorMessage : ExchangeError → String
  | .stateMismatch => "Invalid state parameter. Possible CSRF attack."
  | .missingVerifier => "Code verifier not found. Please restart the OAuth flow."
  | .tokenExchangeFailed status body =>
      "Token exchange failed: Token exchange failed: " ++ toString status ++ " " ++ body
  | .noAccessToken => "Token exchange failed: No access token received"
  | .networkError msg => "Token exchange failed: " ++ msg

/-- Result of one run of processOAuthCallback: the failure message when it
reached the failed path (none on success), the storage state afterwards,
the number of token-endpoint requests and the number of user-info requests
issued. -/
structure ProcessResult where
  failedMessage : Option String
  store : Store
  tokenNetworkCalls : Nat
  userInfoCalls : Nat
deriving DecidableEq, Repr

/-- Embedding of processOAuthCallback (App.tsx lines 38 to 107): validate
the URL parameters, on success invoke exchangeCodeForTokens, and on a
successful exchange issue the user-info request through the authenticated
client, whose thrown error message (if any) is supplied by the userFetch
oracle.  Every failure reaches the catch block with its message; no
network request is made when validation fails. -/
def processOAuthCallback (st : Store) (p : CallbackParams) (net : TokenNet)
    (userFetch : Option String) : ProcessResult :=
  match validateCallback p with
  | .failed m => ⟨some m, st, 0, 0⟩
  | .proceed code state =>
    let r := exchangeCodeForTokens st code state net
    match r.outcome with
    | .error e => ⟨some (exchangeErrorMessage e), r.store, r.networkCalls, 0⟩
    | .ok =>
      match userFetch with
      | some errMsg => ⟨some errMsg, r.store, r.networkCalls, 1⟩
      | none => ⟨none, r.store, r.networkCalls, 1⟩

/-- State of the CallbackHandler effect (AuthCard.tsx lines 218 to 311).
Unlike OAuthCallbackProcessor, this component keeps no execution guard
across effect firings: each firing of the effect body only declares a
local mounted variable, captured by its processCallback closure and set
to false by that firing's own teardown.  The state records the number of
exchangeCodeForTokens and user-info invocations, one mounted flag per
firing so far (in firing order), and the firing indices whose exchange
promise has not yet settled, in launch order. -/
structure HandlerState where
  exchangeCalls : Nat
  userInfoCalls : Nat
  mountedFlags : List Bool
  pending : List Nat
deriving DecidableEq, Repr

/-- Events of the event loop driving the CallbackHandler effect: a fire
event is one synchronous firing of the effect body with callback
parameters present and the extension client ready — it launches
processCallback, whose synchronous prefix runs validation and invokes
exchangeCodeForTokens, with this firing's mounted flag starting true; a
cleanup event is the teardown of the most recent firing (React runs the
teardown of firing k before firing k+1), setting that firing's mounted
flag to false; a resume event is the settlement of the earliest pending
exchange, whose continuation issues the user-info request only when its
own firing's mounted flag is still true (the mounted check after the
await). -/
inductive HandlerEvent
  | fire
  | cleanup
  | resume
deriving DecidableEq, Repr

/-- One event-loop step of the CallbackHandler model.  There is no guard
in the fire case: every firing invokes exchangeCodeForTokens; the mounted
flag only decides whether the post-exchange continuation proceeds to the
user-info request. -/
def handlerStep (s : HandlerState) : HandlerEvent → HandlerState
  | .fire =>
    { s with exchangeCalls := s.exchangeCalls + 1,
             pending := s.pending ++ [s.mountedFlags.length],
             mountedFlags := s.mountedFlags ++ [true] }
  | .cleanup =>
    { s with mountedFlags := s.mountedFlags.set (s.mountedFlags.length - 1) false }
  | .resume =>
    match s.pending with
    | [] => s
    | id :: rest =>
      if s.mountedFlags.getD id false then
        { s with userInfoCalls := s.userInfoCalls + 1, pending := rest }
      else
        { s with pending := rest }

/-- Initial CallbackHandler state at page load. -/
def handlerInit : HandlerState := ⟨0, 0, [], []⟩

/-- Run of the CallbackHandler model over a list of event-loop events. -/
def handlerRun (evs : List HandlerEvent) : HandlerState :=
  evs.foldl handlerStep handlerInit

/-- Invariant of the execution-guard state: either processing never
started (no calls, all flags clear), or it started exactly once (one
exchange call, the guard visible through processing or processed, and the
pending continuation accounting for the one user-info call). -/
def guardInv (s : GuardState) : Prop :=
  (s.exchangeCalls = 0 ∧ s.processed = false ∧ s.processing = false ∧
   s.pendingUserFetch = false ∧ s.userInfoCalls = 0) ∨
  (s.exchangeCalls = 1 ∧ (s.processing = true ∨ s.processed = true) ∧
   s.userInfoCalls + (if s.pendingUserFetch then 1 else 0) ≤ 1)

/-! Helper lemmas about the exchange operation. -/

/-- A state parameter differing from the stored state short-circuits the
whole exchange to the state-mismatch failure with untouched store and no
request. -/
theorem exchange_state_mismatch_eq (st : Store) (code state : String) (net : TokenNet)
    (h : st.state ≠ some state) :
    exchangeCodeForTokens st code state net = ⟨.error .stateMismatch, st, 0⟩ := by
  unfold exchangeCodeForTokens
  rw [if_pos h]

/-- Every run of the exchange either fails leaving the store untouched, or
succeeds with the three PKCE keys removed. -/
theorem exchange_cases (st : Store) (code state : String) (net : TokenNet) :
    ((exchangeCodeForTokens st code state net).store = st ∧
     (exchangeCodeForTokens st code state net).outcome ≠ .ok) ∨
    ((exchangeCodeForTokens st code state net).outcome = .ok ∧
     (exchangeCodeForTokens st code state net).store.codeVerifier = none ∧
     (exchangeCodeForTokens st code state net).store.state = none ∧
     (exchangeCodeForTokens st code state net).store.resourceScope = none) := by
  unfold exchangeCodeForTokens
  split
  · exact Or.inl ⟨rfl, by simp⟩
  · split
    · exact Or.inl ⟨rfl, by simp⟩
    · split
      · exact Or.inl ⟨rfl, by simp⟩
      · split
        · exact Or.inl ⟨rfl, by simp⟩
        · split
          · exact Or.inl ⟨rfl, by simp⟩
          · exact Or.inr ⟨rfl, rfl, rfl, rfl⟩

/-! The claim theorems. -/

/-- C1 counterexample: with the stored transaction (verifier V1, state S1,
scope R1) and the matching pair (code ABC, state S1), the first exchange
succeeds, and the second call with the same code and state fails with the
state-mismatch error rather than the missing-verifier error the claim
names. -/
theorem second_exchange_state_mismatch_cex :
    (exchangeCodeForTokens ⟨none, none, some "V1", some "S1", some "R1"⟩ "ABC" "S1"
      (.responds ⟨true, 200, "", some "AT", some "RT"⟩)).outcome = .ok ∧
    (exchangeCodeForTokens
      (exchangeCodeForTokens ⟨none, none, some "V1", some "S1", some "R1"⟩ "ABC" "S1"
        (.responds ⟨true, 200, "", some "AT", some "RT"⟩)).store "ABC" "S1"
      (.responds ⟨true, 200, "", some "AT", some "RT"⟩)).outcome
      = .error .stateMismatch ∧
    ExchangeOutcome.error .stateMismatch ≠ .error .missingVerifier := by
  decide

/-- C1 (amended): for every stored PKCE transaction and every (code, state)
pair for which exchangeCodeForTokens succeeds, a second call with the same
code and state fails — the exchange succeeds at most once — but the second
failure is the state-mismatch error, because the successful exchange also
removed the stored state and the state check precedes the verifier
check. -/
theorem exchange_succeeds_at_most_once (st : Store) (code state : String)
    (net net2 : TokenNet)
    (h : (exchangeCodeForTokens st code state net).outcome = .ok) :
    (exchangeCodeForTokens (exchangeCodeForTokens st code state net).store
      code state net2).outcome = .error .stateMismatch := by
  rcases exchange_cases st code state net with ⟨_, hne⟩ | ⟨_, _, hstate, _⟩
  · exact absurd h hne
  · have hdiff : (exchangeCodeForTokens st code state net).store.state ≠ some state := by
      rw [hstate]
      simp
    rw [exchange_state_mismatch_eq _ code state net2 hdiff]

/-- C1 witness: the amended theorem applied at the concrete transaction of
the counterexample. -/
theorem exchange_succeeds_at_most_once_witness :
    (exchangeCodeForTokens
      (exchangeCodeForTokens ⟨none, none, some "V1", some "S1", some "R1"⟩ "ABC" "S1"
        (.responds ⟨true, 200, "", some "AT", some "RT"⟩)).store "ABC" "S1"
      (.responds ⟨true, 200, "", some "AT", some "RT"⟩)).outcome
      = .error .stateMismatch :=
  exchange_succeeds_at_most_once ⟨none, none, some "V1", some "S1", some "R1"⟩
    "ABC" "S1" (.responds ⟨true, 200, "", some "AT", some "RT"⟩)
    (.responds ⟨true, 200, "", some "AT", some "RT"⟩) (by decide)

/-- C2: whenever the state parameter differs from the stored state,
exchangeCodeForTokens fails with the state-mismatch error, sends no
request to the token endpoint, and leaves the store untouched. -/
theorem state_mismatch_fails_before_network (st : Store) (code state : String)
    (net : TokenNet) (h : st.state ≠ some state) :
    (exchangeCodeForTokens st code state net).outcome = .error .stateMismatch ∧
    (exchangeCodeForTokens st code state net).networkCalls = 0 ∧
    (exchangeCodeForTokens st code state net).store = st := by
  rw [exchange_state_mismatch_eq st code state net h]
  exact ⟨rfl, rfl, rfl⟩

/-- C2 witness: the theorem applied at a stored state S1 and a differing
callback state S2. -/
theorem state_mismatch_fails_before_network_witness :
    (exchangeCodeForTokens ⟨none, none, some "V1", some "S1", some "R1"⟩ "ABC" "S2"
      (.responds ⟨true, 200, "", some "AT", some "RT"⟩)).outcome
      = .error .stateMismatch ∧
    (exchangeCodeForTokens ⟨none, none, some "V1", some "S1", some "R1"⟩ "ABC" "S2"
      (.responds ⟨true, 200, "", some "AT", some "RT"⟩)).networkCalls = 0 ∧
    (exchangeCodeForTokens ⟨none, none, some "V1", some "S1", some "R1"⟩ "ABC" "S2"
      (.responds ⟨true, 200, "", some "AT", some "RT"⟩)).store
      = ⟨none, none, some "V1", some "S1", some "R1"⟩ :=
  state_mismatch_fails_before_network ⟨none, none, some "V1", some "S1", some "R1"⟩
    "ABC" "S2" (.responds ⟨true, 200, "", some "AT", some "RT"⟩) (by decide)

/-- C10: every failing execution of exchangeCodeForTokens — state
mismatch, missing verifier, thrown fetch, non-success HTTP response or a
success response without access token — leaves the whole store (PKCE
transaction keys and session tokens) exactly as it was, and the
transaction keys are removed only on the fully successful path. -/
theorem failed_exchange_preserves_store (st : Store) (code state : String)
    (net : TokenNet) :
    ((exchangeCodeForTokens st code state net).outcome ≠ .ok →
      (exchangeCodeForTokens st code state net).store = st) ∧
    ((exchangeCodeForTokens st code state net).outcome = .ok →
      (exchangeCodeForTokens st code state net).store.codeVerifier = none ∧
      (exchangeCodeForTokens st code state net).store.state = none ∧
      (exchangeCodeForTokens st code state net).store.resourceScope = none) := by
  rcases exchange_cases st code state net with ⟨h1, h2⟩ | ⟨h1, h2, h3, h4⟩
  · exact ⟨fun _ => h1, fun hok => absurd hok h2⟩
  · exact ⟨fun hne => absurd h1 hne, fun _ => ⟨h2, h3, h4⟩⟩

/-- C10 witness: the theorem applied at a failing input (non-success HTTP
response, store untouched) and at a succeeding input (transaction keys
removed). -/
theorem failed_exchange_preserves_store_witness :
    (exchangeCodeForTokens ⟨none, none, some "V1", some "S1", some "R1"⟩ "ABC" "S1"
      (.responds ⟨false, 400, "bad code", none, none⟩)).store
      = ⟨none, none, some "V1", some "S1", some "R1"⟩ ∧
    (exchangeCodeForTokens ⟨none, none, some "V1", some "S1", some "R1"⟩ "ABC" "S1"
      (.responds ⟨true, 200, "", some "AT", some "RT"⟩)).store.codeVerifier = none :=
  ⟨(failed_exchange_preserves_store ⟨none, none, some "V1", some "S1", some "R1"⟩
      "ABC" "S1" (.responds ⟨false, 400, "bad code", none, none⟩)).1 (by decide),
   ((failed_exchange_preserves_store ⟨none, none, some "V1", some "S1", some "R1"⟩
      "ABC" "S1" (.responds ⟨true, 200, "", some "AT", some "RT"⟩)).2 (by decide)).1⟩

/-- With a truthy stored refresh token, one execution of
performTokenRefresh issues exactly one request to the token endpoint,
whatever the endpoint does. -/
theorem refresh_one_network_call (st : Store) (net : TokenNet)
    (h : jsTruthy st.refreshToken = true) :
    (performTokenRefresh st net).networkCalls = 1 := by
  unfold performTokenRefresh
  rw [if_neg (by simp [h])]
  cases net with
  | throws msg => rfl
  | responds resp =>
    simp only []
    split
    · split <;> rfl
    · split <;> rfl

/-- C8: for a refresh that reaches the network (truthy refresh token, a
server response), an HTTP 400 or 401 clears both session tokens,
dispatches the auth-state-changed event and returns null; any other
non-success status, or a success response without access token, returns
null with the store untouched and no event. -/
theorem refresh_http_failure_policy (st : Store) (resp : TokenResponse)
    (h : jsTruthy st.refreshToken = true) :
    ((resp.ok = false ∧ (resp.status = 401 ∨ resp.status = 400)) →
      (performTokenRefresh st (.responds resp)).result = none ∧
      (performTokenRefresh st (.responds resp)).store.accessToken = none ∧
      (performTokenRefresh st (.responds resp)).store.refreshToken = none ∧
      (performTokenRefresh st (.responds resp)).authEvents = 1) ∧
    ((resp.ok = false ∧ ¬(resp.status = 401 ∨ resp.status = 400)) →
      (performTokenRefresh st (.responds resp)).result = none ∧
      (performTokenRefresh st (.responds resp)).store = st ∧
      (performTokenRefresh st (.responds resp)).authEvents = 0) ∧
    ((resp.ok = true ∧ jsTruthy resp.accessToken = false) →
      (performTokenRefresh st (.responds resp)).result = none ∧
      (performTokenRefresh st (.responds resp)).store = st ∧
      (performTokenRefresh st (.responds resp)).authEvents = 0) := by
  unfold performTokenRefresh
  rw [if_neg (by simp [h])]
  simp only []
  refine ⟨fun ⟨hok, hstat⟩ => ?_, fun ⟨hok, hstat⟩ => ?_, fun ⟨hok, htok⟩ => ?_⟩
  · rw [if_pos hok, if_pos hstat]
    exact ⟨rfl, rfl, rfl, rfl⟩
  · rw [if_pos hok, if_neg hstat]
    exact ⟨rfl, rfl, rfl⟩
  · rw [if_neg (by simp [hok]), if_pos (by simp [htok])]
    exact ⟨rfl, rfl, rfl⟩

/-- C8 witness: the theorem applied at a stored refresh token and a 400
response, discharging the reaches-the-network hypothesis and the first
case. -/
theorem refresh_http_failure_policy_witness :
    (performTokenRefresh ⟨some "A", some "R", none, none, none⟩
      (.responds ⟨false, 400, "invalid_grant", none, none⟩)).result = none ∧
    (performTokenRefresh ⟨some "A", some "R", none, none, none⟩
      (.responds ⟨false, 400, "invalid_grant", none, none⟩)).store.accessToken = none ∧
    (performTokenRefresh ⟨some "A", some "R", none, none, none⟩
      (.responds ⟨false, 400, "invalid_grant", none, none⟩)).store.refreshToken = none ∧
    (performTokenRefresh ⟨some "A", some "R", none, none, none⟩
      (.responds ⟨false, 400, "invalid_grant", none, none⟩)).authEvents = 1 :=
  (refresh_http_failure_policy ⟨some "A", some "R", none, none, none⟩
    ⟨false, 400, "invalid_grant", none, none⟩ (by decide)).1 (by decide)

/-- C4: when refreshAccessToken is invoked a second time while a first
invocation is still outstanding, exactly one request is issued to the
token endpoint and both callers are delivered the identical resolved
value of the single underlying performTokenRefresh execution. -/
theorem refresh_single_flight (st : Store) (net : TokenNet) (c1 c2 : Nat)
    (h : jsTruthy st.refreshToken = true) :
    (sfRun (performTokenRefresh st net) [.invoke c1, .invoke c2, .settle]).networkCalls = 1 ∧
    (sfRun (performTokenRefresh st net) [.invoke c1, .invoke c2, .settle]).delivered
      = [(c1, (performTokenRefresh st net).result),
         (c2, (performTokenRefresh st net).result)] := by
  refine ⟨?_, ?_⟩
  · simp [sfRun, sfStep, sfInit, refresh_one_network_call st net h]
  · simp [sfRun, sfStep, sfInit]

/-- C4 witness: the theorem applied with a stored refresh token and a
successful endpoint response, for two concurrent callers. -/
theorem refresh_single_flight_witness :
    (sfRun (performTokenRefresh ⟨some "A", some "R", none, none, none⟩
        (.responds ⟨true, 200, "", some "AT2", some "RT2"⟩))
      [.invoke 1, .invoke 2, .settle]).networkCalls = 1 ∧
    (sfRun (performTokenRefresh ⟨some "A", some "R", none, none, none⟩
        (.responds ⟨true, 200, "", some "AT2", some "RT2"⟩))
      [.invoke 1, .invoke 2, .settle]).delivered
      = [(1, (performTokenRefresh ⟨some "A", some "R", none, none, none⟩
            (.responds ⟨true, 200, "", some "AT2", some "RT2"⟩)).result),
         (2, (performTokenRefresh ⟨some "A", some "R", none, none, none⟩
            (.responds ⟨true, 200, "", some "AT2", some "RT2"⟩)).result)] :=
  refresh_single_flight ⟨some "A", some "R", none, none, none⟩
    (.responds ⟨true, 200, "", some "AT2", some "RT2"⟩) 1 2 (by decide)

/-- The execution-guard invariant holds at page load. -/
theorem guardInv_init : guardInv effectInit := by
  left
  exact ⟨rfl, rfl, rfl, rfl, rfl⟩

/-- Each event-loop step preserves the execution-guard invariant. -/
theorem guardInv_step (s : GuardState) (e : EffectEvent) (hs : guardInv s) :
    guardInv (effectStep s e) := by
  cases e with
  | trigger =>
    simp only [effectStep]
    rcases hs with ⟨h1, h2, h3, h4, h5⟩ | ⟨h1, h2, h3⟩
    · rw [if_neg (by rw [h2, h3]; exact Bool.false_ne_true)]
      right
      refine ⟨?_, Or.inl rfl, ?_⟩
      · simp [h1]
      · simp [h5]
    · have hcond : (s.processed || s.processing) = true := by
        rcases h2 with h2 | h2
        · rw [h2, Bool.or_true]
        · rw [h2, Bool.true_or]
      rw [if_pos hcond]
      exact Or.inr ⟨h1, h2, h3⟩
  | resume =>
    simp only [effectStep]
    rcases hs with ⟨h1, h2, h3, h4, h5⟩ | ⟨h1, h2, h3⟩
    · rw [if_neg (by rw [h4]; exact Bool.false_ne_true)]
      exact Or.inl ⟨h1, h2, h3, h4, h5⟩
    · by_cases hp : s.pendingUserFetch = true
      · rw [if_pos hp]
        right
        refine ⟨h1, Or.inr rfl, ?_⟩
        rw [hp] at h3
        simp at h3
        simpa using h3
      · rw [if_neg hp]
        exact Or.inr ⟨h1, h2, h3⟩

/-- The execution-guard invariant holds after any sequence of event-loop
events. -/
theorem guardInv_run (evs : List EffectEvent) : guardInv (effectRun evs) := by
  have main : ∀ (l : List EffectEvent) (s : GuardState), guardInv s →
      guardInv (l.foldl effectStep s) := by
    intro l
    induction l with
    | nil => intro s hs; exact hs
    | cons e rest ih => intro s hs; exact ih (effectStep s e) (guardInv_step s e hs)
  exact main evs effectInit guardInv_init

/-- C3 counterexample: in CallbackHandler, which has no execution guard —
only the per-firing mounted flag — firing the callback-processing effect
twice in rapid succession (the teardown of the first firing running
before the second, as React does) invokes exchangeCodeForTokens twice,
not once as the claim requires for this cited source; the mounted flag
only suppresses the first firing's post-exchange continuation, so the
user-info request still happens once. -/
theorem callback_handler_double_fire_cex :
    (handlerRun [.fire, .cleanup, .fire, .resume, .resume]).exchangeCalls = 2 ∧
    (handlerRun [.fire, .cleanup, .fire, .resume, .resume]).exchangeCalls ≠ 1 ∧
    (handlerRun [.fire, .cleanup, .fire, .resume, .resume]).userInfoCalls = 1 := by
  decide

/-- C3 (amended): in OAuthCallbackProcessor, whose execution guard is
checked and set in the same synchronous block that launches the work, two
firings of the callback-processing effect in rapid succession (the second
in a later event-loop turn, before or after the asynchronous
continuation) perform exactly one exchangeCodeForTokens call and one
user-info request; and over every sequence of event-loop events within
one page load the exchange and the user-info request each execute at most
once.  The guarantee does not extend to the unguarded CallbackHandler
variant, whose mounted flag lets a duplicate firing invoke the exchange
again. -/
theorem callback_guard_single_execution :
    (effectRun [.trigger, .trigger, .resume]).exchangeCalls = 1 ∧
    (effectRun [.trigger, .trigger, .resume]).userInfoCalls = 1 ∧
    (effectRun [.trigger, .resume, .trigger]).exchangeCalls = 1 ∧
    (effectRun [.trigger, .resume, .trigger]).userInfoCalls = 1 ∧
    ∀ evs : List EffectEvent,
      (effectRun evs).exchangeCalls ≤ 1 ∧ (effectRun evs).userInfoCalls ≤ 1 := by
  refine ⟨by decide, by decide, by decide, by decide, fun evs => ?_⟩
  rcases guardInv_run evs with ⟨h1, _, _, _, h5⟩ | ⟨h1, _, h3⟩
  · rw [h1, h5]
    exact ⟨Nat.zero_le 1, Nat.zero_le 1⟩
  · refine ⟨Nat.le_of_eq h1, ?_⟩
    exact le_trans (Nat.le_add_right _ _) h3

/-- An object-shaped thrown value with a 401 status field, a 401 nested
response status, or a truthy message containing 401, is classified as a
401 by is401Error. -/
theorem is401Error_of_shape (e : JsError) (h2 : e.isObject = true)
    (h3 : e.status = some 401 ∨ e.responseStatus = some 401 ∨
          (∃ m, e.message = some m ∧ m ≠ "" ∧ strIncludes m "401" = true)) :
    is401Error e = true := by
  unfold is401Error
  rw [h2]
  rcases h3 with h | h | ⟨m, hm, hne, hinc⟩
  · rw [h]
    simp
  · rw [h]
    simp
  · rw [hm]
    simp [hinc, bne_iff_ne, hne]

/-- The observable actions of a sendApiRequest call form one of exactly
four traces: plain success or non-401 failure; refresh then retry;
refresh then retry then forced logout; refresh then forced logout. -/
theorem sendApiRequest_events (tr : ApiCallTrace) :
    (sendApiRequest tr).events = [.send] ∨
    (sendApiRequest tr).events = [.send, .refresh, .send] ∨
    (sendApiRequest tr).events = [.send, .refresh, .send, .logout] ∨
    (sendApiRequest tr).events = [.send, .refresh, .logout] := by
  rcases tr with ⟨fs, ro, rs⟩
  cases fs with
  | resolves r => exact Or.inl rfl
  | rejects e =>
    by_cases h : is401Error e = true
    · by_cases hr : jsTruthy ro = true
      · cases rs with
        | resolves r =>
          simp only [sendApiRequest]
          rw [if_pos h, if_pos hr]
          exact Or.inr (Or.inl rfl)
        | rejects e2 =>
          by_cases h2 : is401Error e2 = true
          · simp only [sendApiRequest]
            rw [if_pos h, if_pos hr, if_pos h2]
            exact Or.inr (Or.inr (Or.inl rfl))
          · simp only [sendApiRequest]
            rw [if_pos h, if_pos hr, if_neg h2]
            exact Or.inr (Or.inl rfl)
      · simp only [sendApiRequest]
        rw [if_pos h, if_neg hr]
        exact Or.inr (Or.inr (Or.inr rfl))
    · simp only [sendApiRequest]
      rw [if_neg h]
      exact Or.inl rfl

/-- C5 counterexample: an underlying send that resolves with a response
whose top-level status field is 401 signals HTTP 401 in the first
recognized shape, yet the client returns it unchanged and never invokes
refreshAccessToken. -/
theorem resolved_401_skips_refresh_cex :
    outcomeSignals401 (.resolves ⟨401, "Unauthorized"⟩) = true ∧
    refreshCount (sendApiRequest
      ⟨.resolves ⟨401, "Unauthorized"⟩, some "tok", .resolves ⟨200, "ok"⟩⟩) = 0 ∧
    (sendApiRequest ⟨.resolves ⟨401, "Unauthorized"⟩, some "tok",
      .resolves ⟨200, "ok"⟩⟩).result = .success ⟨401, "Unauthorized"⟩ := by
  decide

/-- C5 (amended): whenever the underlying send rejects with a value
signalling HTTP 401 in any of the three recognized shapes (top-level
status field 401, nested response status 401, or a message containing
401), the client invokes refreshAccessToken exactly once before deciding
to retry or fail; a send that resolves with a 401-status response is
returned unchanged without a refresh. -/
theorem rejected_401_triggers_refresh (tr : ApiCallTrace) (e : JsError)
    (h1 : tr.firstSend = .rejects e) (h2 : e.isObject = true)
    (h3 : e.status = some 401 ∨ e.responseStatus = some 401 ∨
          (∃ m, e.message = some m ∧ m ≠ "" ∧ strIncludes m "401" = true)) :
    refreshCount (sendApiRequest tr) = 1 := by
  have h401 := is401Error_of_shape e h2 h3
  rcases tr with ⟨fs, ro, rs⟩
  replace h1 : fs = .rejects e := h1
  subst h1
  by_cases hr : jsTruthy ro = true
  · cases rs with
    | resolves r =>
      simp only [sendApiRequest]
      rw [if_pos h401, if_pos hr]
      rfl
    | rejects e2 =>
      by_cases h2' : is401Error e2 = true
      · simp only [sendApiRequest]
        rw [if_pos h401, if_pos hr, if_pos h2']
        rfl
      · simp only [sendApiRequest]
        rw [if_pos h401, if_pos hr, if_neg h2']
        rfl
  · simp only [sendApiRequest]
    rw [if_pos h401, if_neg hr]
    rfl

/-- C5 witness: the amended theorem applied to a rejection carrying a
401 status field. -/
theorem rejected_401_triggers_refresh_witness :
    refreshCount (sendApiRequest
      ⟨.rejects ⟨true, some 401, none, false, none⟩, some "tok",
       .resolves ⟨200, "ok"⟩⟩) = 1 :=
  rejected_401_triggers_refresh
    ⟨.rejects ⟨true, some 401, none, false, none⟩, some "tok", .resolves ⟨200, "ok"⟩⟩
    ⟨true, some 401, none, false, none⟩ rfl rfl (Or.inl rfl)

/-- C6: a call whose first send rejects with a 401, whose refresh yields a
truthy new token and whose retry resolves, performs exactly two underlying
sends and one refresh and returns the retry response; and every call
performs at most two underlying sends. -/
theorem retry_after_refresh_success :
    (∀ (tr : ApiCallTrace) (e : JsError) (r : ApiResponse),
      tr.firstSend = .rejects e → is401Error e = true →
      jsTruthy tr.refreshOutcome = true → tr.retrySend = .resolves r →
      (sendApiRequest tr).result = .success r ∧
      sendCount (sendApiRequest tr) = 2 ∧
      refreshCount (sendApiRequest tr) = 1) ∧
    (∀ tr : ApiCallTrace, sendCount (sendApiRequest tr) ≤ 2) := by
  constructor
  · intro tr e r h1 h2 h3 h4
    rcases tr with ⟨fs, ro, rs⟩
    replace h1 : fs = .rejects e := h1
    replace h3 : jsTruthy ro = true := h3
    replace h4 : rs = .resolves r := h4
    subst h1
    subst h4
    simp only [sendApiRequest]
    rw [if_pos h2, if_pos h3]
    exact ⟨rfl, rfl, rfl⟩
  · intro tr
    rcases sendApiRequest_events tr with h | h | h | h <;>
      · unfold sendCount
        rw [h]
        decide

/-- C6 witness: the theorem applied to a 401 rejection, a successful
refresh and a resolving retry. -/
theorem retry_after_refresh_success_witness :
    (sendApiRequest ⟨.rejects ⟨true, some 401, none, false, none⟩, some "tok",
      .resolves ⟨200, "userinfo"⟩⟩).result = .success ⟨200, "userinfo"⟩ ∧
    sendCount (sendApiRequest ⟨.rejects ⟨true, some 401, none, false, none⟩,
      some "tok", .resolves ⟨200, "userinfo"⟩⟩) = 2 ∧
    refreshCount (sendApiRequest ⟨.rejects ⟨true, some 401, none, false, none⟩,
      some "tok", .resolves ⟨200, "userinfo"⟩⟩) = 1 :=
  retry_after_refresh_success.1
    ⟨.rejects ⟨true, some 401, none, false, none⟩, some "tok", .resolves ⟨200, "userinfo"⟩⟩
    ⟨true, some 401, none, false, none⟩ ⟨200, "userinfo"⟩ rfl (by decide) rfl rfl

/-- C7: a call whose first send rejects with a 401, whose refresh yields a
truthy new token and whose retry rejects with a 401 again, invokes
clearTokensAndRedirect exactly once and propagates the retry error to the
caller. -/
theorem second_401_forces_single_logout (tr : ApiCallTrace) (e e2 : JsError)
    (h1 : tr.firstSend = .rejects e) (h2 : is401Error e = true)
    (h3 : jsTruthy tr.refreshOutcome = true) (h4 : tr.retrySend = .rejects e2)
    (h5 : is401Error e2 = true) :
    logoutCount (sendApiRequest tr) = 1 ∧
    (sendApiRequest tr).result = .failure e2 := by
  rcases tr with ⟨fs, ro, rs⟩
  replace h1 : fs = .rejects e := h1
  replace h3 : jsTruthy ro = true := h3
  replace h4 : rs = .rejects e2 := h4
  subst h1
  subst h4
  simp only [sendApiRequest]
  rw [if_pos h2, if_pos h3, if_pos h5]
  exact ⟨rfl, rfl⟩

/-- C7 witness: the theorem applied to two successive 401 rejections
around a successful refresh. -/
theorem second_401_forces_single_logout_witness :
    logoutCount (sendApiRequest ⟨.rejects ⟨true, some 401, none, false, none⟩,
      some "tok", .rejects ⟨true, none, some 401, false, none⟩⟩) = 1 ∧
    (sendApiRequest ⟨.rejects ⟨true, some 401, none, false, none⟩, some "tok",
      .rejects ⟨true, none, some 401, false, none⟩⟩).result
      = .failure ⟨true, none, some 401, false, none⟩ :=
  second_401_forces_single_logout
    ⟨.rejects ⟨true, some 401, none, false, none⟩, some "tok",
     .rejects ⟨true, none, some 401, false, none⟩⟩
    ⟨true, some 401, none, false, none⟩ ⟨true, none, some 401, false, none⟩
    rfl (by decide) rfl rfl (by decide)

/-- C9 counterexample: a callback URL carrying error equal to
access_denied together with a truthy error description reaches the failed
state with the OAuth-error message built from the description, not with
the special access-denied message the claim requires for every such
URL. -/
theorem access_denied_with_description_cex :
    (⟨none, none, some "access_denied", some "User cancelled login"⟩ :
      CallbackParams).error = some "access_denied" ∧
    (processOAuthCallback ⟨none, none, none, none, none⟩
      ⟨none, none, some "access_denied", some "User cancelled login"⟩
      (.throws "unreachable") none).failedMessage
      = some "OAuth error: User cancelled login" ∧
    (some "OAuth error: User cancelled login" : Option String)
      ≠ some "User denied access to the application" := by
  decide

/-- C9 (amended): for every callback URL whose error parameter is
access_denied and whose error description is absent or empty, the
processing reaches the failed state with the message the claim names,
with no token-endpoint request, no user-info request and an untouched
store.  (A truthy error description can override the special message, as
the counterexample shows at one concrete input.) -/
theorem access_denied_reaches_failed_no_network (st : Store) (p : CallbackParams)
    (net : TokenNet) (userFetch : Option String)
    (h1 : p.error = some "access_denied") (h2 : jsTruthy p.errorDescription = false) :
    processOAuthCallback st p net userFetch =
      ⟨some "User denied access to the application", st, 0, 0⟩ := by
  rcases p with ⟨pc, ps, perr, pdesc⟩
  replace h1 : perr = some "access_denied" := h1
  replace h2 : jsTruthy pdesc = false := h2
  subst h1
  rcases pdesc with _ | s
  · rfl
  · have hs : s = "" := by
      simpa [jsTruthy] using h2
    subst hs
    rfl

/-- C9 witness: the amended theorem applied to a callback URL with
error equal to access_denied and no error description. -/
theorem access_denied_reaches_failed_no_network_witness :
    processOAuthCallback ⟨none, none, some "V1", some "S1", some "R1"⟩
      ⟨none, none, some "access_denied", none⟩ (.throws "unreachable") none =
      ⟨some "User denied access to the application",
       ⟨none, none, some "V1", some "S1", some "R1"⟩, 0, 0⟩ :=
  access_denied_reaches_failed_no_network ⟨none, none, some "V1", some "S1", some "R1"⟩
    ⟨none, none, some "access_denied", none⟩ (.throws "unreachable") none rfl rfl

end DemoChat
